import Mathlib

/-!
Shallow embedding of `src/wasm/wasm-memory.cc` (the wasm memory tracker and
backing-store allocator).  Machine `size_t` values are modelled as `Nat`
with explicit reduction modulo `2^64`; pointers are modelled as `Nat`
(`0` plays the role of `nullptr`); the `std::unordered_map` registry is
modelled as an association list with map semantics (unique keys enforced
by the `mapEmplace` / `mapErase` operations).  Fatal checks (`CHECK`,
`UNREACHABLE`) are modelled by `Option`: `none` is process termination.
`DCHECK`s are debug-only assertions; they appear as hypotheses of the
theorems that need them, never inside the definitions, because in release
builds the code runs past them.
-/

/-- `SIZE_MAX + 1`: the modulus of `size_t` arithmetic (64-bit builds). -/
def kSizeTMod : Nat := 18446744073709551616

/-- Wrapping subtraction modulo `2^64`, as performed by `fetch_sub` /
`operator-=` on `std::atomic<size_t>`. -/
def wsub (x y : Nat) : Nat := (x + (kSizeTMod - y % kSizeTMod)) % kSizeTMod

/-- `kAddressSpaceLimit` from `WasmMemoryTracker::ReserveAddressSpace`:
1 TiB when `V8_TARGET_ARCH_64_BIT`, otherwise 2 GiB. -/
def kAddressSpaceLimit (arch64 : Bool) : Nat :=
  if arch64 then 0x10000000000 else 0x80000000

/-- `WasmMemoryTracker::AllocationData` (declared in `wasm-memory.h`):
the record stored for each live allocation. -/
structure AllocationData where
  allocation_base : Nat
  allocation_length : Nat
  buffer_start : Nat
  buffer_length : Nat
deriving Repr, DecidableEq

/-- The registry `allocations_`: a finite map keyed by `buffer_start`. -/
def AllocationMap : Type := List (Nat × AllocationData)

instance : DecidableEq AllocationMap := by
  unfold AllocationMap; infer_instance

/-- Map lookup (`allocations_.find`), returning the stored record. -/
def FindAllocationData (m : AllocationMap) (k : Nat) : Option AllocationData :=
  match m with
  | [] => none
  | (k', v) :: rest => if k' = k then some v else FindAllocationData rest k

/-- `allocations_.emplace(key, value)`: inserts only when the key is absent;
on an existing key `std::unordered_map::emplace` silently does nothing. -/
def mapEmplace (m : AllocationMap) (k : Nat) (v : AllocationData) : AllocationMap :=
  match FindAllocationData m k with
  | some _ => m
  | none => (k, v) :: m

/-- `allocations_.erase(iterator)`: removes the entry with the given key
(map keys are unique, so removing every pair with that key is the same). -/
def mapErase (m : AllocationMap) (k : Nat) : AllocationMap :=
  match m with
  | [] => []
  | (k', v) :: rest => if k' = k then mapErase rest k else (k', v) :: mapErase rest k

/-- The mutable state of `WasmMemoryTracker`: the two `size_t` counters and
the registry map. -/
structure WasmMemoryTracker where
  reserved_address_space : Nat
  allocated_address_space : Nat
  allocations : AllocationMap
deriving DecidableEq

/-- `WasmMemoryTracker::ReserveAddressSpace(num_bytes)`:
`old = reserved.fetch_add(n)`; if `old + n <= kAddressSpaceLimit` (computed
in wrapping `size_t` arithmetic) return `true`, else subtract `n` back and
return `false`. -/
def ReserveAddressSpace (arch64 : Bool) (s : WasmMemoryTracker) (num_bytes : Nat) :
    Bool × WasmMemoryTracker :=
  let sum := (s.reserved_address_space + num_bytes) % kSizeTMod
  if sum ≤ kAddressSpaceLimit arch64 then
    (true, { s with reserved_address_space := sum })
  else
    (false, { s with reserved_address_space := wsub sum num_bytes })

/-- `WasmMemoryTracker::ReleaseReservation(num_bytes)`:
`reserved.fetch_sub(n)`.  The `DCHECK`s (`n ≤ old_reserved` and
`old_reserved - n ≥ allocated`) are debug-only. -/
def ReleaseReservation (s : WasmMemoryTracker) (num_bytes : Nat) : WasmMemoryTracker :=
  { s with reserved_address_space := wsub s.reserved_address_space num_bytes }

/-- `WasmMemoryTracker::RegisterAllocation`: adds `allocation_length` to
`allocated_address_space_` and `emplace`s the record keyed by
`buffer_start`.  There is no check that the key is absent. -/
def RegisterAllocation (s : WasmMemoryTracker)
    (allocation_base allocation_length buffer_start buffer_length : Nat) :
    WasmMemoryTracker :=
  { s with
    allocated_address_space :=
      (s.allocated_address_space + allocation_length) % kSizeTMod,
    allocations := mapEmplace s.allocations buffer_start
      ⟨allocation_base, allocation_length, buffer_start, buffer_length⟩ }

/-- `WasmMemoryTracker::ReleaseAllocation(buffer_start)`: `CHECK`s that the
key is present (`none` = fatal), subtracts the record's
`allocation_length` from both counters, erases the entry, and returns the
record. -/
def ReleaseAllocation (s : WasmMemoryTracker) (buffer_start : Nat) :
    Option (AllocationData × WasmMemoryTracker) :=
  match FindAllocationData s.allocations buffer_start with
  | none => none
  | some data =>
    some (data,
      { s with
        reserved_address_space :=
          wsub s.reserved_address_space data.allocation_length,
        allocated_address_space :=
          wsub s.allocated_address_space data.allocation_length,
        allocations := mapErase s.allocations buffer_start })

/-- `WasmMemoryTracker::IsWasmMemory(buffer_start)`. -/
def IsWasmMemory (s : WasmMemoryTracker) (buffer_start : Nat) : Bool :=
  (FindAllocationData s.allocations buffer_start).isSome

/-- One tracker operation, with the preconditions stated by the code's
`DCHECK`s (and, for `ReleaseAllocation`, the `CHECK` that the key is
present): these are the conditions under which the calls are specified. -/
inductive Step (arch64 : Bool) : WasmMemoryTracker → WasmMemoryTracker → Prop where
  | reserve (s : WasmMemoryTracker) (n : Nat)
      (hov : s.reserved_address_space + n < kSizeTMod) :
      Step arch64 s (ReserveAddressSpace arch64 s n).2
  | releaseReservation (s : WasmMemoryTracker) (n : Nat)
      (hle : n ≤ s.reserved_address_space)
      (halloc : s.allocated_address_space ≤ s.reserved_address_space - n) :
      Step arch64 s (ReleaseReservation s n)
  | register (s : WasmMemoryTracker) (base len start blen : Nat)
      (hres : s.allocated_address_space + len ≤ s.reserved_address_space) :
      Step arch64 s (RegisterAllocation s base len start blen)
  | releaseAllocation (s t : WasmMemoryTracker) (start : Nat) (d : AllocationData)
      (hfind : ReleaseAllocation s start = some (d, t))
      (hres : d.allocation_length ≤ s.reserved_address_space)
      (halloc : d.allocation_length ≤ s.allocated_address_space) :
      Step arch64 s t

/-- The initial tracker state: both counters zero, empty registry. -/
def initTracker : WasmMemoryTracker :=
  { reserved_address_space := 0, allocated_address_space := 0, allocations := [] }

/-- States reachable from the initial tracker by tracker operations whose
preconditions hold. -/
inductive Reachable (arch64 : Bool) : WasmMemoryTracker → Prop where
  | init : Reachable arch64 initTracker
  | step {s t : WasmMemoryTracker} :
      Reachable arch64 s → Step arch64 s t → Reachable arch64 t

/-- Modelled from the spec: the linear-memory page size, "fixed constant,
e.g. 64 KiB" (`kWasmPageSize` lives in `wasm-limits.h`, outside `src/`). -/
def kWasmPageSize : Nat := 0x10000

/-- Modelled from the spec: `kMaxInt` (from `globals.h`, outside `src/`),
the platform maximum buffer length, since "the byte length is stored as
int in the JSArrayBuffer". -/
def kMaxInt : Nat := 0x7FFFFFFF

/-- Modelled from the spec: `RoundUp(x, m)` (from `utils.h`, outside
`src/`) rounds `x` up to the next multiple of `m`. -/
def roundUp (x m : Nat) : Nat := ((x + m - 1) / m) * m

/-- Modelled from the spec: `base::bits::RoundUpToPowerOfTwo32` (from
`base/bits.h`, outside `src/`): the smallest power of two ≥ `value` for
`1 ≤ value ≤ 2^31` ("round ... up to the next power of two"); `0` maps to
`0`, and inputs above the `DCHECK`ed bound `2^31` wrap to `0` in `uint32`
bit-smearing. -/
def roundUpToPowerOfTwo32 (value : Nat) : Nat :=
  if value = 0 then 0
  else if 2 ^ 31 < value then 0
  else 2 ^ Nat.clog 2 value

/-- Modelled from the spec: `kWasmMaxHeapOffset` (from `wasm-limits.h`,
outside `src/`), "a fixed maximum addressable offset" used to size guard
regions: base plus largest encodable offset, 8 GiB here. -/
def kWasmMaxHeapOffset : Nat := 0x200000000

/-- Modelled from the spec: `CommitPageSize()` (OS page primitive, outside
`src/`), the OS commit granularity. -/
def CommitPageSize : Nat := 0x1000

/-- The `*allocation_length` computation of `TryAllocateBackingStore`:
with guard regions, `RoundUp(kWasmMaxHeapOffset, CommitPageSize())`;
otherwise `RoundUpToPowerOfTwo32(RoundUp(static_cast<uint32_t>(size),
kWasmPageSize))` (the cast truncates modulo `2^32`). -/
def computeAllocationLength (size : Nat) (require_guard_regions : Bool) : Nat :=
  if require_guard_regions then roundUp kWasmMaxHeapOffset CommitPageSize
  else roundUpToPowerOfTwo32 (roundUp (size % 2 ^ 32) kWasmPageSize)

/-- The result of `TryAllocateBackingStore`: the returned `memory` pointer
(`0` = `nullptr` = failure), the tracker state after the call, and the
values written through the `allocation_base` / `allocation_length` out
parameters. -/
structure TABResult where
  memory : Nat
  tracker : WasmMemoryTracker
  allocation_base : Nat
  allocation_length : Nat
deriving DecidableEq

/-- `TryAllocateBackingStore(isolate, size, require_guard_regions, ...)`.
The OS call `AllocatePages` (outside `src/`) is modelled by the oracle
`osReserve`: the base address it returns, `0` for `nullptr` (refusal).
`SetPermissions` is `CHECK`ed to succeed and
`AdjustAmountOfExternalAllocatedMemory` is a fire-and-forget external
hook; neither changes the tracker. -/
def TryAllocateBackingStore (arch64 : Bool) (s : WasmMemoryTracker)
    (size : Nat) (require_guard_regions : Bool) (osReserve : Nat) : TABResult :=
  let len := computeAllocationLength size require_guard_regions
  match ReserveAddressSpace arch64 s len with
  | (false, s1) => ⟨0, s1, 0, len⟩
  | (true, s1) =>
    if osReserve = 0 then
      ⟨0, ReleaseReservation s1 len, 0, len⟩
    else
      ⟨osReserve, RegisterAllocation s1 osReserve len osReserve size,
        osReserve, len⟩

/-- Modelled from the spec: the consumer-visible buffer object
(`JSArrayBuffer`, constructed by the external buffer-object factory):
backing-store pointer, logical byte length, and the four flags. -/
structure JSArrayBuffer where
  backing_store : Nat
  byte_length : Nat
  is_shared : Bool
  is_external : Bool
  is_neuterable : Bool
  is_growable : Bool
deriving DecidableEq

/-- `SetupArrayBuffer(isolate, backing_store, size, is_external, shared)`:
wraps the backing store in a buffer and sets
`is_neuterable := false`, `is_growable := true`. -/
def SetupArrayBuffer (backing_store size : Nat) (is_external shared : Bool) :
    JSArrayBuffer :=
  { backing_store := backing_store, byte_length := size, is_shared := shared,
    is_external := is_external, is_neuterable := false, is_growable := true }

/-- `NewArrayBuffer(isolate, size, require_guard_regions, shared)`.
`FLAG_wasm_max_mem_pages` is the process-configurable page maximum
(`max_mem_pages` here).  Returns the buffer (`none` =
`Handle<JSArrayBuffer>::null()`) and the tracker state after the call. -/
def NewArrayBuffer (arch64 : Bool) (s : WasmMemoryTracker)
    (max_mem_pages size : Nat) (require_guard_regions shared : Bool)
    (osReserve : Nat) : Option JSArrayBuffer × WasmMemoryTracker :=
  if max_mem_pages * kWasmPageSize < size ∨ kMaxInt < size then
    (none, s)
  else if size = 0 then
    (some (SetupArrayBuffer 0 size false shared), s)
  else
    let r := TryAllocateBackingStore arch64 s size require_guard_regions osReserve
    if r.memory = 0 then (none, r.tracker)
    else (some (SetupArrayBuffer r.memory size false shared), r.tracker)

/-- Modelled from the spec: `JSArrayBuffer::Neuter` (outside `src/`),
"the neuter transition: pointer cleared, length set to zero". -/
def Neuter (b : JSArrayBuffer) : JSArrayBuffer :=
  { b with backing_store := 0, byte_length := 0 }

/-- Modelled from the spec: `JSArrayBuffer::FreeBackingStore` (outside
`src/`), the free step of Detach: "call registry.Release(buffer_start) to
obtain the record, then ledger.Release(allocation_length), then release
the OS reservation" — `ReleaseAllocation` performs both counter
decrements; `none` is the fatal path of an unregistered key. -/
def FreeBackingStore (s : WasmMemoryTracker) (b : JSArrayBuffer) :
    Option WasmMemoryTracker :=
  match ReleaseAllocation s b.backing_store with
  | none => none
  | some (_, s1) => some s1

/-- `DetachMemoryBuffer(isolate, buffer, free_memory)`: early return on
shared buffers; otherwise externalize (and free, when `free_memory` and
the buffer was not yet external), then mark neuterable and neuter.
`none` is the fatal path inside `FreeBackingStore`. -/
def DetachMemoryBuffer (s : WasmMemoryTracker) (b : JSArrayBuffer)
    (free_memory : Bool) : Option (JSArrayBuffer × WasmMemoryTracker) :=
  if b.is_shared then some (b, s)
  else if b.is_external then
    some (Neuter { b with is_neuterable := true }, s)
  else
    let b1 := { b with is_external := true }
    match (if free_memory then FreeBackingStore s b1 else some s) with
    | none => none
    | some s1 => some (Neuter { b1 with is_neuterable := true }, s1)

theorem wsub_add_cancel (a n : Nat) (ha : a < kSizeTMod) :
    wsub ((a + n) % kSizeTMod) n = a := by
  simp only [wsub, kSizeTMod] at *
  omega

theorem wsub_exact (x y : Nat) (h1 : y ≤ x) (h2 : x < kSizeTMod) :
    wsub x y = x - y := by
  simp only [wsub, kSizeTMod] at *
  omega

theorem kAddressSpaceLimit_lt (arch64 : Bool) :
    kAddressSpaceLimit arch64 < kSizeTMod := by
  cases arch64 <;> norm_num [kAddressSpaceLimit, kSizeTMod]

theorem reserveAddressSpace_true (arch64 : Bool) (s : WasmMemoryTracker) (n : Nat)
    (hc : (s.reserved_address_space + n) % kSizeTMod ≤ kAddressSpaceLimit arch64) :
    ReserveAddressSpace arch64 s n =
      (true, { s with
        reserved_address_space := (s.reserved_address_space + n) % kSizeTMod }) := by
  simp [ReserveAddressSpace, hc]

theorem reserveAddressSpace_false (arch64 : Bool) (s : WasmMemoryTracker) (n : Nat)
    (hs : s.reserved_address_space < kSizeTMod)
    (hc : ¬ (s.reserved_address_space + n) % kSizeTMod ≤ kAddressSpaceLimit arch64) :
    ReserveAddressSpace arch64 s n = (false, s) := by
  have hrb := wsub_add_cancel s.reserved_address_space n hs
  simp only [ReserveAddressSpace, if_neg hc, hrb]

theorem findAllocationData_mapErase (m : AllocationMap) (k : Nat) :
    FindAllocationData (mapErase m k) k = none := by
  induction m with
  | nil => rfl
  | cons p rest ih =>
    obtain ⟨k', v⟩ := p
    by_cases hp : k' = k
    · simpa [mapErase, hp] using ih
    · simpa [mapErase, FindAllocationData, hp] using ih

/-- The ledger invariant `allocated ≤ reserved ≤ CAP`. -/
def LedgerInv (arch64 : Bool) (s : WasmMemoryTracker) : Prop :=
  s.allocated_address_space ≤ s.reserved_address_space ∧
  s.reserved_address_space ≤ kAddressSpaceLimit arch64

theorem step_preserves_ledgerInv (arch64 : Bool) (s t : WasmMemoryTracker)
    (hst : Step arch64 s t) (ih : LedgerInv arch64 s) : LedgerInv arch64 t := by
  have hcap := kAddressSpaceLimit_lt arch64
  obtain ⟨ih1, ih2⟩ := ih
  cases hst with
  | reserve n hov =>
    have hmod : (s.reserved_address_space + n) % kSizeTMod =
        s.reserved_address_space + n := Nat.mod_eq_of_lt hov
    unfold LedgerInv
    simp only [ReserveAddressSpace, hmod]
    split
    · exact ⟨Nat.le_trans ih1 (Nat.le_add_right _ _), by assumption⟩
    · have hrb : wsub (s.reserved_address_space + n) n =
          s.reserved_address_space := by
        simp only [wsub, kSizeTMod] at *
        omega
      simpa [hrb] using And.intro ih1 ih2
  | releaseReservation n hle halloc =>
    have hres : s.reserved_address_space < kSizeTMod :=
      Nat.lt_of_le_of_lt ih2 hcap
    unfold LedgerInv
    simp only [ReleaseReservation, wsub_exact _ _ hle hres]
    exact ⟨halloc, Nat.le_trans (Nat.sub_le _ _) ih2⟩
  | register base len start blen hres =>
    have hlt : s.allocated_address_space + len < kSizeTMod :=
      Nat.lt_of_le_of_lt (Nat.le_trans hres ih2) hcap
    unfold LedgerInv
    simp only [RegisterAllocation, Nat.mod_eq_of_lt hlt]
    exact ⟨hres, ih2⟩
  | releaseAllocation t' start d hfind hdres hdalloc =>
    have hrlt : s.reserved_address_space < kSizeTMod :=
      Nat.lt_of_le_of_lt ih2 hcap
    have halt : s.allocated_address_space < kSizeTMod :=
      Nat.lt_of_le_of_lt (Nat.le_trans ih1 ih2) hcap
    unfold ReleaseAllocation at hfind
    cases hfd : FindAllocationData s.allocations start with
    | none => rw [hfd] at hfind; exact absurd hfind (by simp)
    | some data =>
      rw [hfd] at hfind
      simp only [Option.some.injEq, Prod.mk.injEq] at hfind
      obtain ⟨hd, ht⟩ := hfind
      subst hd
      rw [← ht]
      unfold LedgerInv
      simp only [wsub_exact _ _ hdres hrlt, wsub_exact _ _ hdalloc halt]
      exact ⟨Nat.sub_le_sub_right ih1 _, Nat.le_trans (Nat.sub_le _ _) ih2⟩

/-- C1: For every state of the tracker reachable by any sequence of
`ReserveAddressSpace`, `ReleaseReservation`, `RegisterAllocation`, and
`ReleaseAllocation` calls whose preconditions hold, the counters satisfy
`allocated_bytes ≤ reserved_bytes ≤ CAP`, where `CAP` is 1 TiB on 64-bit
address spaces and 2 GiB otherwise. -/
theorem reachable_ledger_invariant (arch64 : Bool) (s : WasmMemoryTracker)
    (h : Reachable arch64 s) :
    s.allocated_address_space ≤ s.reserved_address_space ∧
    s.reserved_address_space ≤ kAddressSpaceLimit arch64 := by
  induction h with
  | init => exact ⟨Nat.le_refl 0, Nat.zero_le _⟩
  | step hr hst ih => exact step_preserves_ledgerInv _ _ _ hst ih

/-- Witness for C1 at a concrete reachable state: one successful
reservation of one wasm page from the initial state. -/
theorem reachable_ledger_invariant_witness :
    (ReserveAddressSpace true initTracker 65536).2.allocated_address_space ≤
      (ReserveAddressSpace true initTracker 65536).2.reserved_address_space ∧
    (ReserveAddressSpace true initTracker 65536).2.reserved_address_space ≤
      kAddressSpaceLimit true :=
  reachable_ledger_invariant true _
    (Reachable.step Reachable.init
      (Step.reserve initTracker 65536 (by norm_num [initTracker, kSizeTMod])))

/-- C2 counterexample: the claim "for every n, `ReserveAddressSpace(n)`
returns false and rolls back when `reserved + n` would exceed CAP" fails
at the reachable state `reserved = 1` with `n = SIZE_MAX`: the `size_t`
addition wraps to `0 ≤ CAP`, so the call returns `true` (and stores the
wrapped counter) although the true total `1 + n` far exceeds CAP. -/
theorem reserveAddressSpace_overflow_counterexample :
    (ReserveAddressSpace true ⟨1, 0, []⟩ 18446744073709551615).1 = true ∧
    kAddressSpaceLimit true < 1 + 18446744073709551615 ∧
    (ReserveAddressSpace true ⟨1, 0, []⟩
        18446744073709551615).2.reserved_address_space ≠
      1 + 18446744073709551615 := by
  refine ⟨?_, by norm_num [kAddressSpaceLimit], ?_⟩ <;>
    norm_num [ReserveAddressSpace, kSizeTMod, kAddressSpaceLimit]

/-- C2 (amended): for every `n` such that `reserved_bytes + n` does not
overflow `size_t` (the code's `DCHECK_GE(old_count + num_bytes,
old_count)` precondition), `ReserveAddressSpace(n)` adds `n` to
`reserved_bytes` and returns true when the resulting total is at most
CAP; when the result would exceed CAP it returns false and rolls the
addition back, leaving the whole tracker state (counters and registry)
exactly as before the call. -/
theorem reserveAddressSpace_cap_check (arch64 : Bool) (s : WasmMemoryTracker)
    (n : Nat) (hov : s.reserved_address_space + n < kSizeTMod) :
    (s.reserved_address_space + n ≤ kAddressSpaceLimit arch64 →
      ReserveAddressSpace arch64 s n =
        (true, { s with
          reserved_address_space := s.reserved_address_space + n })) ∧
    (kAddressSpaceLimit arch64 < s.reserved_address_space + n →
      ReserveAddressSpace arch64 s n = (false, s)) := by
  have hmod : (s.reserved_address_space + n) % kSizeTMod =
      s.reserved_address_space + n := Nat.mod_eq_of_lt hov
  constructor
  · intro hle
    rw [reserveAddressSpace_true arch64 s n (by rw [hmod]; exact hle), hmod]
  · intro hgt
    exact reserveAddressSpace_false arch64 s n (by omega) (by rw [hmod]; omega)

/-- Witness for C2 (amended): a reservation of one page from the initial
state succeeds and adds exactly one page; a reservation of `CAP + 1`
bytes from the initial state is rejected and leaves the state untouched. -/
theorem reserveAddressSpace_cap_check_witness :
    ReserveAddressSpace true initTracker 65536 =
      (true, { initTracker with reserved_address_space := 65536 }) ∧
    ReserveAddressSpace true initTracker 0x10000000001 =
      (false, initTracker) :=
  ⟨by
    have h := (reserveAddressSpace_cap_check true initTracker 65536
      (by norm_num [initTracker, kSizeTMod])).1
      (by norm_num [initTracker, kAddressSpaceLimit])
    simpa [initTracker] using h,
   (reserveAddressSpace_cap_check true initTracker 0x10000000001
      (by norm_num [initTracker, kSizeTMod])).2
      (by norm_num [initTracker, kAddressSpaceLimit])⟩

/-- C3 counterexample: registering a record whose `buffer_start` key is
already present does not fail fatally: `allocations_.emplace` silently
keeps the existing record (the new one is discarded) and the call still
completes, incrementing `allocated_address_space` by the new length. -/
theorem registerAllocation_duplicate_counterexample :
    RegisterAllocation
        ⟨131072, 65536, [(4096, ⟨4096, 65536, 4096, 100⟩)]⟩
        8192 65536 4096 200 =
      ⟨131072, 131072, [(4096, ⟨4096, 65536, 4096, 100⟩)]⟩ := by
  rfl

/-- C3 (amended): for every record whose `buffer_start` key is already
present in the registry, `RegisterAllocation` completes normally instead
of failing fatally: the registry is left unchanged (the existing record
is neither overwritten nor duplicated — `emplace` discards the new
record), while `allocated_address_space` is still incremented by the new
`allocation_length`. -/
theorem registerAllocation_duplicate_keeps_existing (s : WasmMemoryTracker)
    (base len start blen : Nat) (d : AllocationData)
    (h : FindAllocationData s.allocations start = some d) :
    (RegisterAllocation s base len start blen).allocations = s.allocations ∧
    FindAllocationData
      (RegisterAllocation s base len start blen).allocations start = some d ∧
    (RegisterAllocation s base len start blen).allocated_address_space =
      (s.allocated_address_space + len) % kSizeTMod := by
  refine ⟨?_, ?_, rfl⟩ <;> simp [RegisterAllocation, mapEmplace, h]

/-- Witness for C3 (amended) at the concrete duplicate registration of the
counterexample. -/
theorem registerAllocation_duplicate_keeps_existing_witness :
    (RegisterAllocation ⟨131072, 65536, [(4096, ⟨4096, 65536, 4096, 100⟩)]⟩
        8192 65536 4096 200).allocations =
      [(4096, ⟨4096, 65536, 4096, 100⟩)] ∧
    FindAllocationData (RegisterAllocation
        ⟨131072, 65536, [(4096, ⟨4096, 65536, 4096, 100⟩)]⟩
        8192 65536 4096 200).allocations 4096 =
      some ⟨4096, 65536, 4096, 100⟩ ∧
    (RegisterAllocation ⟨131072, 65536, [(4096, ⟨4096, 65536, 4096, 100⟩)]⟩
        8192 65536 4096 200).allocated_address_space =
      (65536 + 65536) % kSizeTMod :=
  registerAllocation_duplicate_keeps_existing
    ⟨131072, 65536, [(4096, ⟨4096, 65536, 4096, 100⟩)]⟩
    8192 65536 4096 200 ⟨4096, 65536, 4096, 100⟩ rfl

/-- C4: for every `buffer_start` that is a key in the registry (with the
`DCHECK`ed preconditions that the record's length is covered by both
counters and the counters are in `size_t` range), `ReleaseAllocation`
removes the record, returns it, and decrements both counters by exactly
the record's `allocation_length`; for every `buffer_start` not in the
registry, the `CHECK` fails fatally (`none`) rather than returning. -/
theorem releaseAllocation_spec (s : WasmMemoryTracker) (b : Nat) :
    (∀ d, FindAllocationData s.allocations b = some d →
      d.allocation_length ≤ s.allocated_address_space →
      s.allocated_address_space ≤ s.reserved_address_space →
      s.reserved_address_space < kSizeTMod →
      ReleaseAllocation s b = some (d,
        { reserved_address_space :=
            s.reserved_address_space - d.allocation_length,
          allocated_address_space :=
            s.allocated_address_space - d.allocation_length,
          allocations := mapErase s.allocations b }) ∧
      FindAllocationData (mapErase s.allocations b) b = none) ∧
    (FindAllocationData s.allocations b = none →
      ReleaseAllocation s b = none) := by
  constructor
  · intro d hfind hda har hlt
    have h1 : d.allocation_length ≤ s.reserved_address_space :=
      Nat.le_trans hda har
    have h2 : s.allocated_address_space < kSizeTMod :=
      Nat.lt_of_le_of_lt har hlt
    refine ⟨?_, findAllocationData_mapErase _ _⟩
    unfold ReleaseAllocation
    rw [hfind]
    simp [wsub_exact _ _ h1 hlt, wsub_exact _ _ hda h2]
  · intro hnone
    unfold ReleaseAllocation
    rw [hnone]

/-- Witness for C4: releasing the one registered record of a concrete
state, and the fatal path on the emptied state. -/
theorem releaseAllocation_spec_witness :
    ReleaseAllocation ⟨131072, 65536, [(4096, ⟨4096, 65536, 4096, 100⟩)]⟩
        4096 =
      some (⟨4096, 65536, 4096, 100⟩, ⟨65536, 0, []⟩) ∧
    ReleaseAllocation ⟨65536, 0, []⟩ 4096 = none :=
  ⟨((releaseAllocation_spec
      ⟨131072, 65536, [(4096, ⟨4096, 65536, 4096, 100⟩)]⟩ 4096).1
      ⟨4096, 65536, 4096, 100⟩ rfl (by norm_num) (by norm_num)
      (by norm_num [kSizeTMod])).1,
   (releaseAllocation_spec ⟨65536, 0, []⟩ 4096).2 rfl⟩

theorem tryAllocate_reserveFail (arch64 : Bool) (s : WasmMemoryTracker)
    (size : Nat) (rgr : Bool) (osReserve : Nat)
    (hs : s.reserved_address_space < kSizeTMod)
    (hc : ¬ (s.reserved_address_space + computeAllocationLength size rgr) %
        kSizeTMod ≤ kAddressSpaceLimit arch64) :
    TryAllocateBackingStore arch64 s size rgr osReserve =
      ⟨0, s, 0, computeAllocationLength size rgr⟩ := by
  unfold TryAllocateBackingStore
  dsimp only
  rw [reserveAddressSpace_false arch64 s _ hs hc]

theorem tryAllocate_osFail (arch64 : Bool) (s : WasmMemoryTracker)
    (size : Nat) (rgr : Bool)
    (hs : s.reserved_address_space < kSizeTMod)
    (hc : (s.reserved_address_space + computeAllocationLength size rgr) %
        kSizeTMod ≤ kAddressSpaceLimit arch64) :
    TryAllocateBackingStore arch64 s size rgr 0 =
      ⟨0, s, 0, computeAllocationLength size rgr⟩ := by
  unfold TryAllocateBackingStore
  dsimp only
  rw [reserveAddressSpace_true arch64 s _ hc]
  simp [ReleaseReservation, wsub_add_cancel s.reserved_address_space _ hs]

theorem tryAllocate_success (arch64 : Bool) (s : WasmMemoryTracker)
    (size : Nat) (rgr : Bool) (osReserve : Nat)
    (hc : (s.reserved_address_space + computeAllocationLength size rgr) %
        kSizeTMod ≤ kAddressSpaceLimit arch64)
    (hos : osReserve ≠ 0) :
    TryAllocateBackingStore arch64 s size rgr osReserve =
      ⟨osReserve,
       RegisterAllocation
         { s with reserved_address_space :=
             (s.reserved_address_space + computeAllocationLength size rgr) %
               kSizeTMod }
         osReserve (computeAllocationLength size rgr) osReserve size,
       osReserve, computeAllocationLength size rgr⟩ := by
  unfold TryAllocateBackingStore
  dsimp only
  rw [reserveAddressSpace_true arch64 s _ hc]
  simp [hos]

theorem tryAllocate_allocation_length (arch64 : Bool) (s : WasmMemoryTracker)
    (size : Nat) (rgr : Bool) (osReserve : Nat) :
    (TryAllocateBackingStore arch64 s size rgr osReserve).allocation_length =
      computeAllocationLength size rgr := by
  unfold TryAllocateBackingStore
  dsimp only
  cases h : ReserveAddressSpace arch64 s (computeAllocationLength size rgr) with
  | mk b s1 =>
    cases b
    · rfl
    · by_cases hos : osReserve = 0 <;> simp [hos]

/-- C5: In `TryAllocateBackingStore`, the ledger reservation is performed
before any OS page reservation: if the ledger reservation fails the
function returns `nullptr` with the tracker exactly as before, for every
possible OS answer (the OS and the registry are untouched); and if the
ledger reservation succeeds but the OS reservation fails
(`AllocatePages` returns `nullptr`), the ledger reservation is released
before returning `nullptr`, so the tracker is again exactly as before. -/
theorem tryAllocateBackingStore_failure_paths (arch64 : Bool)
    (s : WasmMemoryTracker) (size : Nat) (rgr : Bool) (osReserve : Nat)
    (hs : s.reserved_address_space < kSizeTMod) :
    ((ReserveAddressSpace arch64 s (computeAllocationLength size rgr)).1 =
        false →
      TryAllocateBackingStore arch64 s size rgr osReserve =
        ⟨0, s, 0, computeAllocationLength size rgr⟩) ∧
    ((ReserveAddressSpace arch64 s (computeAllocationLength size rgr)).1 =
        true →
      TryAllocateBackingStore arch64 s size rgr 0 =
        ⟨0, s, 0, computeAllocationLength size rgr⟩) := by
  by_cases hc : (s.reserved_address_space + computeAllocationLength size rgr) %
      kSizeTMod ≤ kAddressSpaceLimit arch64
  · constructor
    · intro hfalse
      rw [reserveAddressSpace_true arch64 s _ hc] at hfalse
      exact absurd hfalse (by simp)
    · intro _
      exact tryAllocate_osFail arch64 s size rgr hs hc
  · constructor
    · intro _
      exact tryAllocate_reserveFail arch64 s size rgr osReserve hs hc
    · intro htrue
      rw [reserveAddressSpace_false arch64 s _ hs hc] at htrue
      exact absurd htrue (by simp)

theorem clog_two_65536 : Nat.clog 2 65536 = 16 := by
  have h : (65536 : Nat) = 2 ^ 16 := by norm_num
  rw [h, Nat.clog_pow 2 16 (by norm_num)]

theorem computeAllocationLength_one : computeAllocationLength 1 false = 65536 := by
  have h1 : roundUp (1 % 2 ^ 32) kWasmPageSize = 65536 := by
    norm_num [roundUp, kWasmPageSize]
  simp only [computeAllocationLength, Bool.false_eq_true, if_false, h1]
  norm_num [roundUpToPowerOfTwo32, clog_two_65536]

/-- Witness for C5: from a tracker already at the 1 TiB cap, allocating one
byte fails on the ledger and returns the tracker untouched even with a
willing OS (`osReserve = 7`); from the initial tracker, an OS refusal
(`osReserve = 0`) also returns the tracker untouched. -/
theorem tryAllocateBackingStore_failure_paths_witness :
    TryAllocateBackingStore true ⟨0x10000000000, 0, []⟩ 1 false 7 =
      ⟨0, ⟨0x10000000000, 0, []⟩, 0, computeAllocationLength 1 false⟩ ∧
    TryAllocateBackingStore true initTracker 1 false 0 =
      ⟨0, initTracker, 0, computeAllocationLength 1 false⟩ :=
  ⟨(tryAllocateBackingStore_failure_paths true ⟨0x10000000000, 0, []⟩ 1 false 7
      (by norm_num [kSizeTMod])).1
      (by rw [computeAllocationLength_one]; decide),
   (tryAllocateBackingStore_failure_paths true initTracker 1 false 0
      (by norm_num [initTracker, kSizeTMod])).2
      (by rw [computeAllocationLength_one]; decide)⟩

theorem roundUp_ge (x m : Nat) (hm : 0 < m) : x ≤ roundUp x m := by
  unfold roundUp
  have h := Nat.div_add_mod (x + m - 1) m
  rw [Nat.mul_comm] at h
  have h2 : (x + m - 1) % m < m := Nat.mod_lt _ hm
  omega

theorem roundUp_ge_base (x m : Nat) (hm : 0 < m) (hx : 0 < x) :
    m ≤ roundUp x m := by
  unfold roundUp
  have h := Nat.div_add_mod (x + m - 1) m
  rw [Nat.mul_comm] at h
  have h2 : (x + m - 1) % m < m := Nat.mod_lt _ hm
  have hq : 1 ≤ (x + m - 1) / m := by
    rcases Nat.eq_zero_or_pos ((x + m - 1) / m) with h0 | h1
    · rw [h0] at h; omega
    · exact h1
  calc m = 1 * m := (Nat.one_mul m).symm
    _ ≤ ((x + m - 1) / m) * m := Nat.mul_le_mul_right m hq

theorem roundUp_le_of_dvd (x m B : Nat) (hm : 0 < m) (hdvd : m ∣ B)
    (hx : x ≤ B) : roundUp x m ≤ B := by
  obtain ⟨k, rfl⟩ := hdvd
  unfold roundUp
  have h1 : x + m - 1 ≤ m * k + (m - 1) := by omega
  have h2 : (x + m - 1) / m ≤ (m * k + (m - 1)) / m := Nat.div_le_div_right h1
  have h3 : (m * k + (m - 1)) / m = k + (m - 1) / m := Nat.mul_add_div hm k (m - 1)
  have h4 : (m - 1) / m = 0 := Nat.div_eq_of_lt (by omega)
  have h5 : (x + m - 1) / m ≤ k := by omega
  calc ((x + m - 1) / m) * m ≤ k * m := Nat.mul_le_mul_right m h5
    _ = m * k := Nat.mul_comm k m

theorem computeAllocationLength_eq (size : Nat) :
    computeAllocationLength size false =
      roundUpToPowerOfTwo32 (roundUp (size % 2 ^ 32) kWasmPageSize) := by
  simp [computeAllocationLength]

theorem computeAllocationLength_bounds (size : Nat) (hpos : 0 < size)
    (hmax : size ≤ kMaxInt) :
    size ≤ computeAllocationLength size false ∧
    kWasmPageSize ≤ computeAllocationLength size false := by
  have hKM : kMaxInt = 2147483647 := rfl
  have h32 : (2 : Nat) ^ 32 = 4294967296 := by norm_num
  have hm32 : size < 2 ^ 32 := by rw [h32]; omega
  have hmod : size % 2 ^ 32 = size := Nat.mod_eq_of_lt hm32
  have hpage : (0 : Nat) < kWasmPageSize := by norm_num [kWasmPageSize]
  have h1 : size ≤ roundUp size kWasmPageSize := roundUp_ge size kWasmPageSize hpage
  have h2 : kWasmPageSize ≤ roundUp size kWasmPageSize :=
    roundUp_ge_base size kWasmPageSize hpage hpos
  have h31 : (2 : Nat) ^ 31 = 2147483648 := by norm_num
  have h3 : roundUp size kWasmPageSize ≤ 2 ^ 31 := by
    apply roundUp_le_of_dvd size kWasmPageSize (2 ^ 31) hpage
    · exact ⟨2 ^ 15, by norm_num [kWasmPageSize]⟩
    · rw [h31]; omega
  have hne : roundUp size kWasmPageSize ≠ 0 := by
    have := hpage
    omega
  have hnotgt : ¬ 2 ^ 31 < roundUp size kWasmPageSize := by omega
  have hpow : roundUpToPowerOfTwo32 (roundUp size kWasmPageSize) =
      2 ^ Nat.clog 2 (roundUp size kWasmPageSize) := by
    simp only [roundUpToPowerOfTwo32, if_neg hne, if_neg hnotgt]
  have h4 : roundUp size kWasmPageSize ≤
      2 ^ Nat.clog 2 (roundUp size kWasmPageSize) :=
    Nat.le_pow_clog (by norm_num) _
  rw [computeAllocationLength_eq, hmod, hpow]
  exact ⟨Nat.le_trans h1 h4, Nat.le_trans h2 h4⟩

/-- C6: with guard regions not requested, `TryAllocateBackingStore` writes
`allocation_length` as the requested size rounded up to the wasm page
size and then up to the next power of two, so for accepted sizes
(`0 < size ≤ kMaxInt`) the length is at least `size` and at least one
page; and a size exceeding the configured maxima is rejected by the
caller before any side effect: the tracker is returned unchanged, with no
reservation and no registration. -/
theorem tryAllocateBackingStore_allocation_length_spec (arch64 : Bool)
    (s : WasmMemoryTracker) (max_mem_pages size : Nat) (shared : Bool)
    (osReserve : Nat) (hpos : 0 < size) (hmax : size ≤ kMaxInt) :
    (TryAllocateBackingStore arch64 s size false osReserve).allocation_length =
      roundUpToPowerOfTwo32 (roundUp size kWasmPageSize) ∧
    size ≤ (TryAllocateBackingStore arch64 s size false osReserve).allocation_length ∧
    kWasmPageSize ≤
      (TryAllocateBackingStore arch64 s size false osReserve).allocation_length ∧
    (∀ size2, min (max_mem_pages * kWasmPageSize) kMaxInt < size2 →
      NewArrayBuffer arch64 s max_mem_pages size2 false shared osReserve =
        (none, s)) := by
  have hKM : kMaxInt = 2147483647 := rfl
  have h32 : (2 : Nat) ^ 32 = 4294967296 := by norm_num
  have hm32 : size < 2 ^ 32 := by rw [h32]; omega
  have hlen := tryAllocate_allocation_length arch64 s size false osReserve
  have hb := computeAllocationLength_bounds size hpos hmax
  refine ⟨?_, ?_, ?_, ?_⟩
  · rw [hlen, computeAllocationLength_eq, Nat.mod_eq_of_lt hm32]
  · rw [hlen]; exact hb.1
  · rw [hlen]; exact hb.2
  · intro size2 h2
    have hc := min_lt_iff.mp h2
    unfold NewArrayBuffer
    rw [if_pos hc]

/-- Witness for C6 at `size = 1` (with `max_mem_pages = 32767`, the V8
default): the computed length dominates the size and one page, and a
request of `min(32767 * 64 KiB, kMaxInt) + 1` bytes is rejected with the
tracker unchanged. -/
theorem tryAllocateBackingStore_allocation_length_spec_witness :
    (TryAllocateBackingStore true initTracker 1 false 7).allocation_length =
      roundUpToPowerOfTwo32 (roundUp 1 kWasmPageSize) ∧
    1 ≤ (TryAllocateBackingStore true initTracker 1 false 7).allocation_length ∧
    kWasmPageSize ≤
      (TryAllocateBackingStore true initTracker 1 false 7).allocation_length ∧
    (∀ size2, min (32767 * kWasmPageSize) kMaxInt < size2 →
      NewArrayBuffer true initTracker 32767 size2 false false 7 =
        (none, initTracker)) :=
  tryAllocateBackingStore_allocation_length_spec true initTracker 32767 1
    false 7 (by norm_num) (by norm_num [kMaxInt])

/-- C7: for every size strictly greater than
`min(configured_max_pages * page_size, kMaxInt)`, `NewArrayBuffer`
rejects immediately: it returns no buffer and the tracker exactly as it
was — no ledger reservation, no OS allocation, no registry insertion. -/
theorem newArrayBuffer_rejects_oversize (arch64 : Bool)
    (s : WasmMemoryTracker) (max_mem_pages size : Nat)
    (require_guard_regions shared : Bool) (osReserve : Nat)
    (h : min (max_mem_pages * kWasmPageSize) kMaxInt < size) :
    NewArrayBuffer arch64 s max_mem_pages size require_guard_regions shared
      osReserve = (none, s) := by
  have hc := min_lt_iff.mp h
  unfold NewArrayBuffer
  rw [if_pos hc]

/-- Witness for C7: a request of `kMaxInt + 1` bytes under the default
page limit is rejected with the tracker unchanged. -/
theorem newArrayBuffer_rejects_oversize_witness :
    NewArrayBuffer true initTracker 32767 2147483648 false false 7 =
      (none, initTracker) :=
  newArrayBuffer_rejects_oversize true initTracker 32767 2147483648 false
    false 7 (by norm_num [kWasmPageSize, kMaxInt])

/-- C8: `NewArrayBuffer` with `size == 0` succeeds and produces a buffer
whose backing store is the null pointer, with the tracker exactly as it
was: no ledger reservation, no OS reservation, no registry insertion. -/
theorem newArrayBuffer_zero_size (arch64 : Bool) (s : WasmMemoryTracker)
    (max_mem_pages : Nat) (require_guard_regions shared : Bool)
    (osReserve : Nat) :
    NewArrayBuffer arch64 s max_mem_pages 0 require_guard_regions shared
        osReserve =
      (some { backing_store := 0, byte_length := 0, is_shared := shared,
              is_external := false, is_neuterable := false,
              is_growable := true }, s) := by
  unfold NewArrayBuffer
  rw [if_neg (by simp), if_pos rfl]
  rfl

theorem mapEmplace_fresh (m : AllocationMap) (k : Nat) (v : AllocationData)
    (h : FindAllocationData m k = none) : mapEmplace m k v = (k, v) :: m := by
  unfold mapEmplace
  rw [h]

/-- C9: for every ledger state satisfying the ledger invariant, a
successful allocation of a backing store (fresh OS address, reservation
within the cap) followed by `ReleaseAllocation` of its `buffer_start`
restores both ledger counters to their values before the allocation. -/
theorem allocate_release_roundtrip (arch64 : Bool) (s : WasmMemoryTracker)
    (size : Nat) (require_guard_regions : Bool) (osReserve : Nat)
    (hfresh : FindAllocationData s.allocations osReserve = none)
    (hos : osReserve ≠ 0)
    (hcap : s.reserved_address_space +
        computeAllocationLength size require_guard_regions ≤
      kAddressSpaceLimit arch64)
    (hinv : s.allocated_address_space ≤ s.reserved_address_space) :
    (TryAllocateBackingStore arch64 s size require_guard_regions
        osReserve).memory = osReserve ∧
    ∃ d t,
      ReleaseAllocation
          (TryAllocateBackingStore arch64 s size require_guard_regions
            osReserve).tracker
          (TryAllocateBackingStore arch64 s size require_guard_regions
            osReserve).memory =
        some (d, t) ∧
      d.allocation_length =
        computeAllocationLength size require_guard_regions ∧
      t.reserved_address_space = s.reserved_address_space ∧
      t.allocated_address_space = s.allocated_address_space := by
  have hcapM := kAddressSpaceLimit_lt arch64
  have hlenM : s.reserved_address_space +
      computeAllocationLength size require_guard_regions < kSizeTMod :=
    Nat.lt_of_le_of_lt hcap hcapM
  have hmod : (s.reserved_address_space +
      computeAllocationLength size require_guard_regions) % kSizeTMod =
      s.reserved_address_space +
        computeAllocationLength size require_guard_regions :=
    Nat.mod_eq_of_lt hlenM
  have hc : (s.reserved_address_space +
      computeAllocationLength size require_guard_regions) % kSizeTMod ≤
      kAddressSpaceLimit arch64 := by rw [hmod]; exact hcap
  rw [tryAllocate_success arch64 s size require_guard_regions osReserve hc hos]
  dsimp only
  generalize hgen : computeAllocationLength size require_guard_regions = len
  rw [hgen] at hlenM hmod
  have haM : s.allocated_address_space + len < kSizeTMod := by
    simp only [kSizeTMod] at *
    omega
  have hreg : RegisterAllocation
      { s with reserved_address_space :=
          (s.reserved_address_space + len) % kSizeTMod }
      osReserve len osReserve size =
    { reserved_address_space := s.reserved_address_space + len,
      allocated_address_space := s.allocated_address_space + len,
      allocations :=
        (osReserve, ⟨osReserve, len, osReserve, size⟩) :: s.allocations } := by
    unfold RegisterAllocation
    dsimp only
    rw [mapEmplace_fresh _ _ _ hfresh, hmod, Nat.mod_eq_of_lt haM]
  rw [hreg]
  have hw1 : wsub (s.reserved_address_space + len) len =
      s.reserved_address_space := by
    rw [wsub_exact _ _ (Nat.le_add_left _ _) hlenM]
    omega
  have hw2 : wsub (s.allocated_address_space + len) len =
      s.allocated_address_space := by
    rw [wsub_exact _ _ (Nat.le_add_left _ _) haM]
    omega
  refine ⟨rfl, ⟨osReserve, len, osReserve, size⟩,
    { reserved_address_space := s.reserved_address_space,
      allocated_address_space := s.allocated_address_space,
      allocations :=
        mapErase ((osReserve, ⟨osReserve, len, osReserve, size⟩) ::
          s.allocations) osReserve },
    ?_, rfl, rfl, rfl⟩
  unfold ReleaseAllocation
  simp [FindAllocationData, hw1, hw2]

/-- Witness for C9: allocating one wasm page (without guard regions) from
the initial tracker at OS address 4096 and releasing it restores both
counters to zero. -/
theorem allocate_release_roundtrip_witness :
    (TryAllocateBackingStore true initTracker 1 false 4096).memory = 4096 ∧
    ∃ d t,
      ReleaseAllocation
          (TryAllocateBackingStore true initTracker 1 false 4096).tracker
          (TryAllocateBackingStore true initTracker 1 false 4096).memory =
        some (d, t) ∧
      d.allocation_length = computeAllocationLength 1 false ∧
      t.reserved_address_space = initTracker.reserved_address_space ∧
      t.allocated_address_space = initTracker.allocated_address_space :=
  allocate_release_roundtrip true initTracker 1 false 4096 rfl
    (by norm_num)
    (by rw [computeAllocationLength_one]; norm_num [initTracker, kAddressSpaceLimit])
    (by norm_num [initTracker])

/-- C10: for every non-shared buffer that is already marked external (with
the `DCHECK`ed precondition that it is not yet neuterable),
`DetachMemoryBuffer` with `free_memory = true` does not run the free
step: the tracker — registry and ledger — is returned unchanged, and the
buffer is marked neuterable and then neutered, its pointer cleared and
its length set to zero. -/
theorem detachMemoryBuffer_external_noop (s : WasmMemoryTracker)
    (b : JSArrayBuffer) (hsh : b.is_shared = false)
    (hext : b.is_external = true) (_hneut : b.is_neuterable = false) :
    DetachMemoryBuffer s b true =
      some ({ b with
                is_neuterable := true,
                backing_store := 0,
                byte_length := 0 }, s) := by
  unfold DetachMemoryBuffer
  rw [hsh, hext]
  simp [Neuter]

/-- Witness for C10: a concrete external, non-shared buffer is neutered
with the tracker untouched. -/
theorem detachMemoryBuffer_external_noop_witness :
    DetachMemoryBuffer initTracker ⟨77, 100, false, true, false, true⟩ true =
      some (⟨0, 0, false, true, true, true⟩, initTracker) :=
  detachMemoryBuffer_external_noop initTracker
    ⟨77, 100, false, true, false, true⟩ rfl rfl rfl
